import Mathlib

/-!
Shallow embedding of the Social-75 backend (src/backend/server.js) and of the
Redux auth slice (src/src/redux/authSlice.js).

Request bodies and upstream JSON payloads carry JavaScript values, so we embed
a small JavaScript value type with the truthiness rules the handlers rely on
(`!x` checks and `x || default` fallbacks).  The four MongoDB collections
become four lists held in a `DB` record; `deleteMany`, `insertMany` and
`insertOne` become list operations; a `find` with filter, sort and limit
becomes filter + stable-enough sort by `createdAt` descending + `take`
(MongoDB treats `limit(0)` as no limit, which we reproduce).  The outbound
HTTP calls of the two fetchers are a parameter `upstream`: `none` stands for
an axios error or a malformed payload (both throw at the same point, before
any storage write), `some raws` for a well-formed response body.  `new Date()`
becomes a `now : Nat` parameter.  Each route handler returns an outcome record
holding the HTTP status, the JSON body where relevant, the resulting database,
and counters for the observable side effects (fetcher invocations, realtime
publishes).
-/

namespace Social75

/-- JavaScript values as far as the handlers inspect them.  Objects are kept
opaque (an id), since the code only ever tests them for truthiness or stores
them unchanged. -/
inductive JVal where
  | undef
  | null
  | bool (b : Bool)
  | num (n : Int)
  | str (s : String)
  | obj (id : Nat)
deriving Repr, DecidableEq

/-- JavaScript truthiness: `undefined`, `null`, `false`, `0` and the empty
string are falsy, every other value (in particular any object) is truthy. -/
def JVal.truthy : JVal → Bool
  | .undef => false
  | .null => false
  | .bool b => b
  | .num n => n != 0
  | .str s => s != ""
  | .obj _ => true

/-- JavaScript `a || b`: the left operand when truthy, otherwise the right. -/
def jsOr (a b : JVal) : JVal :=
  if a.truthy then a else b

/-- JavaScript string coercion, as used by the template literal building the
NGO `location` field. -/
def JVal.toJSString : JVal → String
  | .undef => "undefined"
  | .null => "null"
  | .bool true => "true"
  | .bool false => "false"
  | .num n => toString n
  | .str s => s
  | .obj _ => "[object Object]"

/-- Splits a character list into whitespace-separated words (accumulator holds
the current word reversed). -/
def wordsAux : List Char → List Char → List (List Char)
  | [], cur => if cur.isEmpty then [] else [cur.reverse]
  | c :: rest, cur =>
    if c = ' ' then
      if cur.isEmpty then wordsAux rest []
      else cur.reverse :: wordsAux rest []
    else wordsAux rest (c :: cur)

/-- The words of a string. -/
def tokens (s : String) : List (List Char) :=
  wordsAux s.data []

/-- Model of a MongoDB `$text` match of `search` against an indexed string
field: some search term occurs as a word of the field (stemming and case
folding are abstracted away; what the development relies on is only that a
search can match none of the cached records). -/
def textMatch (search field : String) : Bool :=
  (tokens search).any (fun w => (tokens field).contains w)

/-- A `$text` match against a field holding an arbitrary JavaScript value:
only string fields participate. -/
def textMatchJ (search : String) (v : JVal) : Bool :=
  match v with
  | .str s => textMatch search s
  | _ => false

/-- Upstream TED-talks API record, fields as read by `fetchTEDTalks`
(server.js lines 101-111). -/
structure RawTalk where
  id : JVal
  title : JVal
  speaker : JVal
  description : JVal
  duration : JVal
  url : JVal
  thumbnail : JVal
deriving Repr, DecidableEq

/-- A cached talk as stored in the `tedTalks` collection. -/
structure Talk where
  id : JVal
  title : JVal
  speaker : JVal
  description : JVal
  duration : JVal
  url : JVal
  thumbnail : JVal
  type : String
  createdAt : Nat
deriving Repr, DecidableEq

/-- Normalization done inside `fetchTEDTalks` (server.js lines 101-111):
fields are copied, `type` is the constant `"Video"`, `createdAt` is the
server clock. -/
def normalizeTalk (now : Nat) (t : RawTalk) : Talk :=
  { id := t.id, title := t.title, speaker := t.speaker,
    description := t.description, duration := t.duration, url := t.url,
    thumbnail := t.thumbnail, type := "Video", createdAt := now }

/-- Upstream ProPublica organization record, fields as read by
`refreshNGOData` (server.js lines 128-137). -/
structure RawOrg where
  ein : JVal
  name : JVal
  ntee_code : JVal
  website : JVal
  city : JVal
  state : JVal
  ntee_classification : JVal
deriving Repr, DecidableEq

/-- A cached NGO record as stored in the `ngos` collection. -/
structure Ngo where
  id : JVal
  name : JVal
  type : String
  description : JVal
  website : JVal
  location : String
  mission : JVal
  createdAt : Nat
deriving Repr, DecidableEq

/-- Normalization done inside `refreshNGOData` (server.js lines 128-137),
with the JavaScript fallbacks written `x || literal`. -/
def normalizeNgo (now : Nat) (org : RawOrg) : Ngo :=
  { id := org.ein, name := org.name, type := "NGO",
    description := jsOr org.ntee_code (.str "No description available"),
    website := jsOr org.website (.str "Not available"),
    location := org.city.toJSString ++ ", " ++ org.state.toJSString,
    mission := jsOr org.ntee_classification (.str "No mission statement"),
    createdAt := now }

/-- A map check-in as stored in the `mapData` collection (server.js lines
191-197). -/
structure CheckIn where
  location : JVal
  interest : JVal
  category : JVal
  userId : JVal
  createdAt : Nat
deriving Repr, DecidableEq

/-- A chat message as stored in the `messages` collection (server.js lines
278-283). -/
structure Message where
  text : JVal
  user : JVal
  photoURL : JVal
  createdAt : Nat
deriving Repr, DecidableEq

/-- The four collections of the document store. -/
structure DB where
  tedTalks : List Talk
  ngos : List Ngo
  mapData : List CheckIn
  messages : List Message
deriving Repr, DecidableEq

/-- The empty database. -/
def emptyDB : DB :=
  { tedTalks := [], ngos := [], mapData := [], messages := [] }

/-- `db.collection(tedTalks).deleteMany(\x7b\x7d)`. -/
def deleteAllTalks (db : DB) : DB :=
  { db with tedTalks := [] }

/-- `db.collection(tedTalks).insertMany(talks)`. -/
def insertManyTalks (ts : List Talk) (db : DB) : DB :=
  { db with tedTalks := db.tedTalks ++ ts }

/-- `db.collection(ngos).deleteMany(\x7b\x7d)`. -/
def deleteAllNgos (db : DB) : DB :=
  { db with ngos := [] }

/-- `db.collection(ngos).insertMany(ngos)`. -/
def insertManyNgos (ns : List Ngo) (db : DB) : DB :=
  { db with ngos := db.ngos ++ ns }

/-- `db.collection(mapData).insertOne(record)`. -/
def insertCheckIn (c : CheckIn) (db : DB) : DB :=
  { db with mapData := db.mapData ++ [c] }

/-- `db.collection(messages).insertOne(message)`. -/
def insertMessage (m : Message) (db : DB) : DB :=
  { db with messages := db.messages ++ [m] }

/-- Inserts `x` into a list already sorted by `key` descending, after every
element of key at least `key x`. -/
def insertDescBy {α : Type} (key : α → Nat) (x : α) : List α → List α
  | [] => [x]
  | y :: ys => if key x ≤ key y then y :: insertDescBy key x ys else x :: y :: ys

/-- Insertion sort by `key` descending, modelling `sort(\x7bcreatedAt: -1\x7d)`. -/
def sortDescBy {α : Type} (key : α → Nat) : List α → List α
  | [] => []
  | y :: ys => insertDescBy key y (sortDescBy key ys)

/-- Applies a MongoDB cursor limit: `limit(0)` means no limit. -/
def applyLimit {α : Type} (limit : Nat) (l : List α) : List α :=
  if limit = 0 then l else l.take limit

/-- `fetchTEDTalks` (server.js lines 91-120): on upstream success, normalize
the payload, delete every cached talk, bulk-insert the fresh ones and return
them; an axios error or a payload without `result.results` throws before any
storage call, so the error propagates with the database untouched. -/
def fetchTEDTalks (now : Nat) (upstream : Option (List RawTalk)) (db : DB) :
    Option (List Talk) × DB :=
  match upstream with
  | none => (none, db)
  | some raws =>
    let talks := raws.map (normalizeTalk now)
    (some talks, insertManyTalks talks (deleteAllTalks db))

/-- `refreshNGOData` (server.js lines 122-146): same delete-all then
bulk-insert shape over the `ngos` collection. -/
def refreshNGOData (now : Nat) (upstream : Option (List RawOrg)) (db : DB) :
    Option (List Ngo) × DB :=
  match upstream with
  | none => (none, db)
  | some orgs =>
    let ngos := orgs.map (normalizeNgo now)
    (some ngos, insertManyNgos ngos (deleteAllNgos db))

/-- The `tedTalks` query of GET /api/content (server.js lines 209-215):
filter by `$text` on `title` when `search` is a truthy string, sort by
`createdAt` descending, apply the cursor limit. -/
def findTalks (search : Option String) (limit : Nat) (db : DB) : List Talk :=
  let filtered :=
    match search with
    | none => db.tedTalks
    | some s =>
      if s = "" then db.tedTalks
      else db.tedTalks.filter (fun t => textMatchJ s t.title)
  applyLimit limit (sortDescBy (fun t => t.createdAt) filtered)

/-- The `ngos` query of GET /api/action-hub (server.js lines 232-241):
`$text` on `name` when `search` is truthy, equality on `type` when `type` is
truthy, sort by `createdAt` descending, cursor limit. -/
def findNgos (search ty : Option String) (limit : Nat) (db : DB) : List Ngo :=
  let l1 :=
    match search with
    | none => db.ngos
    | some s =>
      if s = "" then db.ngos
      else db.ngos.filter (fun n => textMatchJ s n.name)
  let l2 :=
    match ty with
    | none => l1
    | some t => if t = "" then l1 else l1.filter (fun n => n.type = t)
  applyLimit limit (sortDescBy (fun n => n.createdAt) l2)

/-- Outcome of GET /api/content: HTTP status, JSON body on success, the
database afterwards, and how many times `fetchTEDTalks` was invoked. -/
structure ContentOutcome where
  status : Nat
  body : Option (List Talk)
  db : DB
  fetchCalls : Nat
deriving Repr, DecidableEq

/-- GET /api/content (server.js lines 207-227): query the cache; if the
result set is empty, run one fetch-and-replace cycle and answer with the
first `limit` fresh talks (`freshTalks.slice(0, limit)`); a fetch failure is
caught and answered with status 500; otherwise serve the cached result. -/
def getContent (search : Option String) (limit now : Nat)
    (upstream : Option (List RawTalk)) (db : DB) : ContentOutcome :=
  let talks := findTalks search limit db
  if talks.length = 0 then
    match fetchTEDTalks now upstream db with
    | (some fresh, db2) =>
      { status := 200, body := some (fresh.take limit), db := db2, fetchCalls := 1 }
    | (none, db2) =>
      { status := 500, body := none, db := db2, fetchCalls := 1 }
  else
    { status := 200, body := some talks, db := db, fetchCalls := 0 }

/-- Outcome of GET /api/action-hub, shaped like `ContentOutcome`. -/
structure ActionHubOutcome where
  status : Nat
  body : Option (List Ngo)
  db : DB
  fetchCalls : Nat
deriving Repr, DecidableEq

/-- GET /api/action-hub (server.js lines 230-253): same serve-or-refresh
logic as GET /api/content over the `ngos` collection. -/
def getActionHub (search ty : Option String) (limit now : Nat)
    (upstream : Option (List RawOrg)) (db : DB) : ActionHubOutcome :=
  let ngos := findNgos search ty limit db
  if ngos.length = 0 then
    match refreshNGOData now upstream db with
    | (some fresh, db2) =>
      { status := 200, body := some (fresh.take limit), db := db2, fetchCalls := 1 }
    | (none, db2) =>
      { status := 500, body := none, db := db2, fetchCalls := 1 }
  else
    { status := 200, body := some ngos, db := db, fetchCalls := 0 }

/-- Environment configuration relevant to the admin-protected routes:
whether NODE_ENV equals the string production, and ADMIN_API_KEY (which, as
an environment variable, may be unset). -/
structure Env where
  production : Bool
  adminApiKey : Option String
deriving Repr, DecidableEq

/-- Outcome of a POST /api/refresh route. -/
structure RefreshOutcome where
  status : Nat
  count : Option Nat
  db : DB
  fetchCalls : Nat
deriving Repr, DecidableEq

/-- POST /api/refresh/ted-talks (server.js lines 300-311): in production
mode, a strict-inequality check of the x-api-key header against
ADMIN_API_KEY answers 403 before anything else; otherwise one
`fetchTEDTalks` call, answered 200 with the record count on success and 500
on failure. -/
def refreshTedTalksRoute (env : Env) (apiKeyHeader : Option String)
    (now : Nat) (upstream : Option (List RawTalk)) (db : DB) : RefreshOutcome :=
  if env.production ∧ apiKeyHeader ≠ env.adminApiKey then
    { status := 403, count := none, db := db, fetchCalls := 0 }
  else
    match fetchTEDTalks now upstream db with
    | (some ts, db2) =>
      { status := 200, count := some ts.length, db := db2, fetchCalls := 1 }
    | (none, db2) =>
      { status := 500, count := none, db := db2, fetchCalls := 1 }

/-- POST /api/refresh/ngos (server.js lines 313-324): same gate, calling
`refreshNGOData`. -/
def refreshNgosRoute (env : Env) (apiKeyHeader : Option String)
    (now : Nat) (upstream : Option (List RawOrg)) (db : DB) : RefreshOutcome :=
  if env.production ∧ apiKeyHeader ≠ env.adminApiKey then
    { status := 403, count := none, db := db, fetchCalls := 0 }
  else
    match refreshNGOData now upstream db with
    | (some ns, db2) =>
      { status := 200, count := some ns.length, db := db2, fetchCalls := 1 }
    | (none, db2) =>
      { status := 500, count := none, db := db2, fetchCalls := 1 }

/-- Body of POST /api/send-message; an absent property reads as `undefined`. -/
structure MsgBody where
  text : JVal
  user : JVal
  photoURL : JVal
deriving Repr, DecidableEq

/-- Outcome of POST /api/send-message, with a counter of Pusher publishes. -/
structure MsgOutcome where
  status : Nat
  body : Option Message
  db : DB
  published : Nat
deriving Repr, DecidableEq

/-- POST /api/send-message (server.js lines 271-297): `!text || !user`
answers 400 before any storage or Pusher call; otherwise the message gets
`photoURL || empty-string` and a server `createdAt`, is inserted, published
on the chat channel, and answered 201. -/
def sendMessage (b : MsgBody) (now : Nat) (db : DB) : MsgOutcome :=
  if !b.text.truthy || !b.user.truthy then
    { status := 400, body := none, db := db, published := 0 }
  else
    let m : Message :=
      { text := b.text, user := b.user,
        photoURL := jsOr b.photoURL (.str ""), createdAt := now }
    { status := 201, body := some m, db := insertMessage m db, published := 1 }

/-- Body of POST /api/map; an absent property reads as `undefined`. -/
structure MapBody where
  location : JVal
  interest : JVal
  category : JVal
  userId : JVal
deriving Repr, DecidableEq

/-- Outcome of POST /api/map. -/
structure MapOutcome where
  status : Nat
  body : Option CheckIn
  db : DB
deriving Repr, DecidableEq

/-- POST /api/map (server.js lines 184-204): the destructuring default turns
an undefined `category` into the string general (a JavaScript default fires
only on `undefined`, not on `null`); `!location || !interest` answers 400
before any storage call; otherwise the check-in gets a server `createdAt`
and is inserted, answered 201. -/
def postMap (b : MapBody) (now : Nat) (db : DB) : MapOutcome :=
  let category :=
    match b.category with
    | .undef => JVal.str "general"
    | v => v
  if !b.location.truthy || !b.interest.truthy then
    { status := 400, body := none, db := db }
  else
    let c : CheckIn :=
      { location := b.location, interest := b.interest, category := category,
        userId := b.userId, createdAt := now }
    { status := 201, body := some c, db := insertCheckIn c db }

/-- The serializable user stored by the auth slice: exactly five fields. -/
structure AuthUser where
  uid : JVal
  email : JVal
  displayName : JVal
  photoURL : JVal
  emailVerified : JVal
deriving Repr, DecidableEq

/-- State of the auth slice. -/
structure AuthState where
  user : Option AuthUser
  loading : Bool
  error : Option JVal
deriving Repr, DecidableEq

/-- The slice initial state (authSlice.js lines 4-8). -/
def initialState : AuthState :=
  { user := none, loading := false, error := none }

/-- A `loginSuccess` action payload: the five properties the reducer reads
(an absent property reads as `undefined`) plus whatever other properties the
action carried. -/
structure AuthPayload where
  uid : JVal
  email : JVal
  displayName : JVal
  photoURL : JVal
  emailVerified : JVal
  extras : List (String × JVal)
deriving Repr, DecidableEq

/-- The `loginSuccess` reducer (authSlice.js lines 19-30): builds the stored
user from the payload with `displayName || empty-string`,
`photoURL || empty-string`, `emailVerified || false`, and clears `loading`
and `error`. -/
def loginSuccess (p : AuthPayload) (_s : AuthState) : AuthState :=
  { user := some
      { uid := p.uid, email := p.email,
        displayName := jsOr p.displayName (.str ""),
        photoURL := jsOr p.photoURL (.str ""),
        emailVerified := jsOr p.emailVerified (.bool false) },
    loading := false, error := none }

/-- Formalisation of claim C10 exactly as worded: the substitutions happen
for a missing (undefined) `displayName`, `photoURL` or `emailVerified` only,
every present value being stored as is.  Kept separate from `loginSuccess`,
which embeds the source reducer, so the two can be compared. -/
def loginSuccessClaimed (p : AuthPayload) (_s : AuthState) : AuthState :=
  { user := some
      { uid := p.uid, email := p.email,
        displayName := match p.displayName with | .undef => .str "" | v => v,
        photoURL := match p.photoURL with | .undef => .str "" | v => v,
        emailVerified := match p.emailVerified with | .undef => .bool false | v => v },
    loading := false, error := none }

/-- Erases the `createdAt` timestamp of a cached talk, for comparing
collections up to refresh time. -/
def Talk.stripTime (t : Talk) : Talk :=
  { t with createdAt := 0 }

/-- A concrete cached talk used in concrete evaluations. -/
def exTalk : Talk :=
  { id := .num 1, title := .str "climate", speaker := .str "ann",
    description := .str "d", duration := .num 301, url := .str "u",
    thumbnail := .str "t", type := "Video", createdAt := 10 }

/-- A database whose talks cache holds exactly `exTalk`. -/
def exDB : DB :=
  { tedTalks := [exTalk], ngos := [], mapData := [], messages := [] }

/-- A concrete upstream talk record. -/
def exRawTalk : RawTalk :=
  { id := .num 7, title := .str "oceans", speaker := .str "bo",
    description := .str "deep", duration := .num 420, url := .str "u7",
    thumbnail := .str "t7" }

/-- A concrete upstream organization record, indexed so that several distinct
ones can be built. -/
def mkOrg (n : Nat) : RawOrg :=
  { ein := .num n, name := .str "green org", ntee_code := .null,
    website := .undef, city := .str "Pune", state := .str "MH",
    ntee_classification := .str "env" }

/-- Five distinct upstream organizations, for the limit-two scenario. -/
def fiveOrgs : List RawOrg :=
  [mkOrg 1, mkOrg 2, mkOrg 3, mkOrg 4, mkOrg 5]

/-- A concrete send-message body lacking `text`. -/
def exMsgBody : MsgBody :=
  { text := .undef, user := .str "alice", photoURL := .undef }

/-- A concrete valid map check-in body with `category` omitted. -/
def exMapBody : MapBody :=
  { location := .obj 0, interest := .str "trees", category := .undef,
    userId := .undef }

/-- A concrete loginSuccess payload whose `displayName` is null (present but
falsy). -/
def c10payload : AuthPayload :=
  { uid := .str "u1", email := .str "e", displayName := .null,
    photoURL := .str "p", emailVerified := .bool true, extras := [] }

end Social75

open Social75

/-- Helper: a database with an empty talks collection yields an empty
GET /api/content query result for every search and limit. -/
theorem findTalks_of_nil (search : Option String) (limit : Nat) (db : DB)
    (h : db.tedTalks = []) : findTalks search limit db = [] := by
  unfold findTalks
  cases search with
  | none => simp [h, sortDescBy, applyLimit]
  | some s =>
    by_cases hs : s = "" <;> simp [h, hs, sortDescBy, applyLimit]

/-- Helper: a database with an empty ngos collection yields an empty
GET /api/action-hub query result for every search, type and limit. -/
theorem findNgos_of_nil (search ty : Option String) (limit : Nat) (db : DB)
    (h : db.ngos = []) : findNgos search ty limit db = [] := by
  unfold findNgos
  cases search with
  | none =>
    cases ty with
    | none => simp [h, sortDescBy, applyLimit]
    | some t => by_cases ht : t = "" <;> simp [h, ht, sortDescBy, applyLimit]
  | some s =>
    cases ty with
    | none => by_cases hs : s = "" <;> simp [h, hs, sortDescBy, applyLimit]
    | some t =>
      by_cases hs : s = "" <;> by_cases ht : t = "" <;>
        simp [h, hs, ht, sortDescBy, applyLimit]

/-- Claim C1, counterexample: with a non-empty talks cache but a search that
matches no cached talk, GET /api/content does invoke the TED-talks fetcher,
so it is not the case that a non-empty cache suppresses the fetcher
regardless of the search parameter. -/
theorem c1_counterexample :
    exDB.tedTalks ≠ [] ∧
    (getContent (some "ocean") 20 5 (some [exRawTalk]) exDB).fetchCalls ≠ 0 := by
  decide

/-- Claim C1, amended: for every GET /api/content request whose cache query
result (the search filter applied to the talks collection, sorted and cut to
the cursor limit) is non-empty, the handler never invokes the TED-talks
fetcher and the response is that cached result alone, with the database left
unchanged. -/
theorem c1_cache_serves (search : Option String) (limit now : Nat)
    (upstream : Option (List RawTalk)) (db : DB)
    (h : findTalks search limit db ≠ []) :
    getContent search limit now upstream db =
      { status := 200, body := some (findTalks search limit db),
        db := db, fetchCalls := 0 } := by
  have hlen : ¬ (findTalks search limit db).length = 0 := by
    simpa [List.length_eq_zero] using h
  simp [getContent, hlen]

/-- Claim C1, witness of the amended statement at a concrete input. -/
theorem c1_witness :
    getContent none 20 5 none exDB =
      { status := 200, body := some (findTalks none 20 exDB),
        db := exDB, fetchCalls := 0 } :=
  c1_cache_serves none 20 5 none exDB (by decide)

/-- Claim C2: after a completed force refresh (fetchTEDTalks or
refreshNGOData), the target collection holds exactly the records the fetcher
returned in that invocation, and no record that was cached before survives
unless it is among the returned ones. -/
theorem c2_force_refresh_replaces (now : Nat) (db dbT dbN : DB)
    (upT : Option (List RawTalk)) (upN : Option (List RawOrg))
    (ts : List Talk) (ns : List Ngo)
    (hT : fetchTEDTalks now upT db = (some ts, dbT))
    (hN : refreshNGOData now upN db = (some ns, dbN)) :
    (dbT.tedTalks = ts ∧
      ∀ r ∈ db.tedTalks, r ∉ ts → r ∉ dbT.tedTalks) ∧
    (dbN.ngos = ns ∧
      ∀ r ∈ db.ngos, r ∉ ns → r ∉ dbN.ngos) := by
  have h1 : dbT.tedTalks = ts := by
    cases upT with
    | none => simp [fetchTEDTalks] at hT
    | some raws =>
      simp [fetchTEDTalks, insertManyTalks, deleteAllTalks] at hT
      obtain ⟨h1, h2⟩ := hT
      rw [← h2, h1]
  have h2 : dbN.ngos = ns := by
    cases upN with
    | none => simp [refreshNGOData] at hN
    | some orgs =>
      simp [refreshNGOData, insertManyNgos, deleteAllNgos] at hN
      obtain ⟨h1, h2⟩ := hN
      rw [← h2, h1]
  refine ⟨⟨h1, ?_⟩, ⟨h2, ?_⟩⟩
  · intro r _ hr
    rw [h1]
    exact hr
  · intro r _ hr
    rw [h2]
    exact hr

/-- Claim C2, witness at concrete inputs. -/
theorem c2_witness :
    ((fetchTEDTalks 3 (some [exRawTalk]) exDB).2.tedTalks =
        [normalizeTalk 3 exRawTalk] ∧
      ∀ r ∈ exDB.tedTalks, r ∉ [normalizeTalk 3 exRawTalk] →
        r ∉ (fetchTEDTalks 3 (some [exRawTalk]) exDB).2.tedTalks) ∧
    ((refreshNGOData 3 (some fiveOrgs) exDB).2.ngos =
        fiveOrgs.map (normalizeNgo 3) ∧
      ∀ r ∈ exDB.ngos, r ∉ fiveOrgs.map (normalizeNgo 3) →
        r ∉ (refreshNGOData 3 (some fiveOrgs) exDB).2.ngos) :=
  c2_force_refresh_replaces 3 exDB _ _ (some [exRawTalk]) (some fiveOrgs)
    _ _ rfl rfl

/-- Claim C3: a content read (GET /api/content or GET /api/action-hub)
arriving while the target cache is empty runs exactly one fetch-and-replace
cycle; afterwards the storage holds all records the fetcher returned and the
response is the first `limit` of them in the order the fetcher returned
them. -/
theorem c3_empty_cache_refresh (search ty : Option String) (limit now : Nat)
    (rawsT : List RawTalk) (rawsN : List RawOrg) (db : DB) :
    (db.tedTalks = [] →
      getContent search limit now (some rawsT) db =
        { status := 200,
          body := some ((rawsT.map (normalizeTalk now)).take limit),
          db := { db with tedTalks := rawsT.map (normalizeTalk now) },
          fetchCalls := 1 }) ∧
    (db.ngos = [] →
      getActionHub search ty limit now (some rawsN) db =
        { status := 200,
          body := some ((rawsN.map (normalizeNgo now)).take limit),
          db := { db with ngos := rawsN.map (normalizeNgo now) },
          fetchCalls := 1 }) := by
  constructor
  · intro h
    have hf := findTalks_of_nil search limit db h
    simp [getContent, hf, fetchTEDTalks, insertManyTalks, deleteAllTalks]
  · intro h
    have hf := findNgos_of_nil search ty limit db h
    simp [getActionHub, hf, refreshNGOData, insertManyNgos, deleteAllNgos]

/-- Claim C3, witness: the spec scenario, an empty cache, limit two, five
fetched NGOs; the response is the first two in fetcher order and storage
holds all five. -/
theorem c3_witness :
    getActionHub none none 2 9 (some fiveOrgs) emptyDB =
      { status := 200,
        body := some ((fiveOrgs.map (normalizeNgo 9)).take 2),
        db := { emptyDB with ngos := fiveOrgs.map (normalizeNgo 9) },
        fetchCalls := 1 } :=
  (c3_empty_cache_refresh none none 2 9 [] fiveOrgs emptyDB).2 rfl

/-- Claim C4: when a serve-triggered refresh hits an upstream failure (an
axios error or a malformed payload, both modelled by `upstream = none`), the
handler answers 500, the fetcher is attempted exactly once in that request,
and the cached collections are exactly as before the attempt. -/
theorem c4_fetch_failure_propagates (search ty : Option String)
    (limit now : Nat) (db : DB) :
    (findTalks search limit db = [] →
      getContent search limit now none db =
        { status := 500, body := none, db := db, fetchCalls := 1 }) ∧
    (findNgos search ty limit db = [] →
      getActionHub search ty limit now none db =
        { status := 500, body := none, db := db, fetchCalls := 1 }) := by
  constructor
  · intro h
    simp [getContent, h, fetchTEDTalks]
  · intro h
    simp [getActionHub, h, refreshNGOData]

/-- Claim C4, witness at a concrete input. -/
theorem c4_witness :
    getContent none 20 7 none emptyDB =
      { status := 500, body := none, db := emptyDB, fetchCalls := 1 } :=
  (c4_fetch_failure_propagates none none 20 7 emptyDB).1 (by decide)

/-- Claim C5: in production mode with the admin key configured, a refresh
request whose x-api-key header is missing or different from the key is
answered 403, with no fetcher invocation and no storage change, on both
refresh routes. -/
theorem c5_admin_gate (env : Env) (hdr : Option String) (k : String)
    (now : Nat) (upT : Option (List RawTalk)) (upN : Option (List RawOrg))
    (db : DB) (hp : env.production = true) (hk : env.adminApiKey = some k)
    (hne : hdr ≠ some k) :
    refreshTedTalksRoute env hdr now upT db =
      { status := 403, count := none, db := db, fetchCalls := 0 } ∧
    refreshNgosRoute env hdr now upN db =
      { status := 403, count := none, db := db, fetchCalls := 0 } := by
  have hc : env.production = true ∧ hdr ≠ env.adminApiKey := by
    refine ⟨hp, ?_⟩
    rw [hk]
    exact hne
  constructor
  · simp [refreshTedTalksRoute, hc.1, hc.2]
  · simp [refreshNgosRoute, hc.1, hc.2]

/-- Claim C5, witness: a missing header on one route and a wrong header on
the other, in production with a configured key. -/
theorem c5_witness :
    refreshTedTalksRoute
        { production := true, adminApiKey := some "s3cret" } none 4 none
        emptyDB =
      { status := 403, count := none, db := emptyDB, fetchCalls := 0 } ∧
    refreshNgosRoute
        { production := true, adminApiKey := some "s3cret" } (some "wrong") 4
        none emptyDB =
      { status := 403, count := none, db := emptyDB, fetchCalls := 0 } :=
  ⟨(c5_admin_gate { production := true, adminApiKey := some "s3cret" } none
      "s3cret" 4 none none emptyDB rfl rfl (by decide)).1,
   (c5_admin_gate { production := true, adminApiKey := some "s3cret" }
      (some "wrong") "s3cret" 4 none none emptyDB rfl rfl (by decide)).2⟩


/-- Claim C6: a POST /api/send-message whose body lacks `text` or lacks
`user` is answered 400, with no storage insert and no realtime publish. -/
theorem c6_message_validation (b : MsgBody) (now : Nat) (db : DB)
    (h : b.text = JVal.undef ∨ b.user = JVal.undef) :
    sendMessage b now db =
      { status := 400, body := none, db := db, published := 0 } := by
  rcases h with h | h <;> simp [sendMessage, h, JVal.truthy]

/-- Claim C6, witness: a body without `text`. -/
theorem c6_witness :
    sendMessage exMsgBody 8 emptyDB =
      { status := 400, body := none, db := emptyDB, published := 0 } :=
  c6_message_validation exMsgBody 8 emptyDB (Or.inl rfl)

/-- Claim C7: two immediately successive talk refreshes against a stable
upstream response leave the talks collection with the same record count and
the same content up to the `createdAt` timestamps. -/
theorem c7_force_refresh_idempotent (raws : List RawTalk) (db : DB)
    (t1 t2 : Nat) :
    ((fetchTEDTalks t2 (some raws)
        (fetchTEDTalks t1 (some raws) db).2).2.tedTalks.map Talk.stripTime =
      (fetchTEDTalks t1 (some raws) db).2.tedTalks.map Talk.stripTime) ∧
    (fetchTEDTalks t2 (some raws)
        (fetchTEDTalks t1 (some raws) db).2).2.tedTalks.length =
      (fetchTEDTalks t1 (some raws) db).2.tedTalks.length := by
  constructor
  · simp [fetchTEDTalks, insertManyTalks, deleteAllTalks]
    intro a _
    rfl
  · simp [fetchTEDTalks, insertManyTalks, deleteAllTalks]

/-- Claim C8: a valid POST /api/map (truthy `location` and `interest`, the
acceptance condition of the handler) stores a check-in whose `createdAt` is
the server clock and whose `category` is the string general whenever the body
omitted `category`. -/
theorem c8_checkin_defaults (b : MapBody) (now : Nat) (db : DB)
    (hl : b.location.truthy = true) (hi : b.interest.truthy = true) :
    ∃ rec : CheckIn,
      postMap b now db =
        { status := 201, body := some rec, db := insertCheckIn rec db } ∧
      rec.createdAt = now ∧
      (b.category = JVal.undef → rec.category = JVal.str "general") := by
  refine ⟨{ location := b.location, interest := b.interest,
            category := match b.category with
                        | .undef => JVal.str "general"
                        | v => v,
            userId := b.userId, createdAt := now }, ?_, rfl, ?_⟩
  · simp [postMap, hl, hi]
  · intro h
    rw [h]

/-- Claim C8, witness: a valid body with `category` omitted. -/
theorem c8_witness :
    ∃ rec : CheckIn,
      postMap exMapBody 11 emptyDB =
        { status := 201, body := some rec, db := insertCheckIn rec emptyDB } ∧
      rec.createdAt = 11 ∧
      (exMapBody.category = JVal.undef → rec.category = JVal.str "general") :=
  c8_checkin_defaults exMapBody 11 emptyDB rfl rfl

/-- Claim C9: the required-field checks of POST /api/map and POST
/api/send-message are falsy checks, so a required field that is present but
equal to the empty string, zero or null is answered 400 exactly as when the
field is absent (undefined), with no storage write in any of these cases. -/
theorem c9_falsy_validation (v : JVal) (mb : MapBody) (sb : MsgBody)
    (now : Nat) (db : DB)
    (hv : v = JVal.str "" ∨ v = JVal.num 0 ∨ v = JVal.null) :
    (postMap { mb with location := v } now db =
        postMap { mb with location := JVal.undef } now db ∧
      (postMap { mb with location := v } now db).status = 400 ∧
      (postMap { mb with location := v } now db).db = db) ∧
    (postMap { mb with interest := v } now db =
        postMap { mb with interest := JVal.undef } now db ∧
      (postMap { mb with interest := v } now db).status = 400 ∧
      (postMap { mb with interest := v } now db).db = db) ∧
    (sendMessage { sb with text := v } now db =
        sendMessage { sb with text := JVal.undef } now db ∧
      (sendMessage { sb with text := v } now db).status = 400 ∧
      (sendMessage { sb with text := v } now db).db = db) ∧
    (sendMessage { sb with user := v } now db =
        sendMessage { sb with user := JVal.undef } now db ∧
      (sendMessage { sb with user := v } now db).status = 400 ∧
      (sendMessage { sb with user := v } now db).db = db) := by
  rcases hv with h | h | h <;> subst h <;>
    simp [postMap, sendMessage, JVal.truthy]

/-- Claim C9, witness: a null `location` on POST /api/map. -/
theorem c9_witness :
    postMap { exMapBody with location := JVal.null } 6 emptyDB =
        postMap { exMapBody with location := JVal.undef } 6 emptyDB ∧
      (postMap { exMapBody with location := JVal.null } 6 emptyDB).status =
        400 ∧
      (postMap { exMapBody with location := JVal.null } 6 emptyDB).db =
        emptyDB :=
  (c9_falsy_validation JVal.null exMapBody exMsgBody 6 emptyDB
    (Or.inr (Or.inr rfl))).1

/-- Claim C10, counterexample: on a payload whose `displayName` is null
(present, not missing), the reducer stores the empty string, not the payload
value, so the claim that substitution happens only for missing fields fails;
`loginSuccessClaimed` formalises the claim word for word. -/
theorem c10_counterexample :
    loginSuccess c10payload initialState ≠
      loginSuccessClaimed c10payload initialState := by
  decide

/-- Claim C10, amended: for every payload, the reducer stores in the user
slot exactly the five fields uid, email, displayName, photoURL and
emailVerified, substituting the empty string for a missing or otherwise
falsy displayName or photoURL and false for a missing or otherwise falsy
emailVerified, is unaffected by every other payload field and by the
previous state, and sets loading to false and error to null. -/
theorem c10_login_success (p : AuthPayload) (s : AuthState) :
    (loginSuccess p s).loading = false ∧
    (loginSuccess p s).error = none ∧
    (∀ q : AuthPayload, ∀ s2 : AuthState,
      q.uid = p.uid → q.email = p.email → q.displayName = p.displayName →
      q.photoURL = p.photoURL → q.emailVerified = p.emailVerified →
      loginSuccess q s2 = loginSuccess p s) ∧
    ∃ u : AuthUser, (loginSuccess p s).user = some u ∧
      u.uid = p.uid ∧ u.email = p.email ∧
      u.displayName =
        (if p.displayName.truthy then p.displayName else JVal.str "") ∧
      u.photoURL =
        (if p.photoURL.truthy then p.photoURL else JVal.str "") ∧
      u.emailVerified =
        (if p.emailVerified.truthy then p.emailVerified else JVal.bool false) := by
  refine ⟨rfl, rfl, ?_, ?_⟩
  · intro q s2 h1 h2 h3 h4 h5
    simp [loginSuccess, h1, h2, h3, h4, h5]
  · exact ⟨_, rfl, rfl, rfl, rfl, rfl, rfl⟩

/-- Claim C10, witness of the amended statement at a concrete payload. -/
theorem c10_witness :
    (loginSuccess c10payload initialState).loading = false ∧
    (loginSuccess c10payload initialState).error = none :=
  ⟨(c10_login_success c10payload initialState).1,
   (c10_login_success c10payload initialState).2.1⟩
